import Mathlib

/-!
Shallow embedding of the bakery inventory manager (`src/app.py`) and
verification of its specification claims.

Modelling conventions:
* SQLAlchemy rows become Lean structures; the SQLite database becomes a
  `Store` holding the four tables as lists.
* Python `float` quantities and prices are modelled as exact rationals
  (`Rat`); the claims are about exact arithmetic (decrement by exactly `q`,
  `0 ≤ quantity_current ≤ quantity_initial`), not rounding behaviour.
* `datetime`/`date` values are modelled as `Nat` ordinals; only their
  linear order matters to the claims.
* Each Flask handler becomes a function `Store → args → Except Err Store`
  (or a pure result for read-only handlers).  A handler that flashes an
  error message and redirects without calling `db.session.commit` performs
  no mutation, so it is embedded as `Except.error e`: the absence of a
  result store models "store unchanged".
* Python `float(raw)` parsing of a form field is abstracted by an
  `Option Rat` argument: `some v` when parsing succeeds with value `v`,
  `none` when `float` raises `ValueError`.
-/

/-- Row of the `User` table (`app.py` lines 25-30). -/
structure User where
  id : Nat
  username : String
  password_hash : String
  role : String
deriving DecidableEq, Repr

/-- Row of the `Product` table (`app.py` lines 32-48). -/
structure Product where
  id : Nat
  barcode : String
  name : String
  brand : String
  supplier : String
  unit_measure : String
  unit_price : Rat
deriving DecidableEq, Repr

/-- Row of the `Batch` table (`app.py` lines 55-63). -/
structure Batch where
  id : Nat
  product_id : Nat
  quantity_initial : Rat
  quantity_current : Rat
  entry_date : Nat
  expiry_date : Option Nat
  created_by : String
deriving DecidableEq, Repr

/-- Row of the `Log` table (`app.py` lines 65-72); the timestamp column is
irrelevant to every claim and omitted. -/
structure Log where
  user_id : String
  product_name : String
  action : String
  quantity_change : Rat
deriving DecidableEq, Repr

/-- The SQLite database: the four tables. -/
structure Store where
  users : List User
  products : List Product
  batches : List Batch
  logs : List Log
deriving DecidableEq, Repr

/-- Failure outcomes of the handlers, using the spec's error vocabulary.
`notFound` is Flask's `get_or_404`; the others are flash-and-redirect (or,
for `invalidInput`, an uncaught `ValueError`) paths that commit nothing. -/
inductive Err where
  | notFound
  | insufficientQuantity
  | duplicateBarcode
  | duplicateUsername
  | forbidden
  | invalidInput
deriving DecidableEq, Repr

/-- Primary-key lookup `Batch.query.get(batch_id)`. -/
def findBatch (s : Store) (bid : Nat) : Option Batch :=
  s.batches.find? (fun b => b.id == bid)

/-- The row update performed by `use_batch` on the batch with primary key
`bid`: `batch.quantity_current -= qty_to_use`. -/
def updQty (bid : Nat) (q : Rat) (b : Batch) : Batch :=
  if b.id == bid then
    { b with quantity_current := b.quantity_current - q }
  else b

/-- Primary-key lookup `Product.query.get(product_id)`. -/
def findProduct (s : Store) (pid : Nat) : Option Product :=
  s.products.find? (fun p => p.id == pid)

/-- Lookup `Product.query.filter_by(barcode=code).first()`.  SQLite string
equality on a column without a collation is byte-wise, hence the
case-sensitive `String` equality. -/
def findProductByBarcode (s : Store) (code : String) : Option Product :=
  s.products.find? (fun p => p.barcode == code)

/-- Fresh primary key for an inserted batch row. -/
def freshBatchId (s : Store) : Nat :=
  (s.batches.map (fun b => b.id)).foldr max 0 + 1

/-- Fresh primary key for an inserted product row. -/
def freshProductId (s : Store) : Nat :=
  (s.products.map (fun p => p.id)).foldr max 0 + 1

/-- Fresh primary key for an inserted user row. -/
def freshUserId (s : Store) : Nat :=
  (s.users.map (fun u => u.id)).foldr max 0 + 1

/-- Handler `use_batch` (`app.py` lines 319-341).  `get_or_404` on the batch
id; then the ONLY guard in the source is `qty_to_use > batch.quantity_current`
(there is no `qty_to_use > 0` check).  On success the batch's
`quantity_current` is decremented and an `OUT` log row is appended in the
same commit.  `batch.product.name` is the FK traversal; rows inserted by
this application always have a valid product FK, and the lookup defaults to
`""` on a dangling reference. -/
def use_batch (s : Store) (bid : Nat) (qty_to_use : Rat) (actor : String) :
    Except Err Store :=
  match findBatch s bid with
  | none => .error .notFound
  | some batch =>
    if batch.quantity_current < qty_to_use then
      .error .insufficientQuantity
    else
      .ok { s with
        batches := s.batches.map (updQty bid qty_to_use),
        logs := s.logs ++
          [⟨actor, ((findProduct s batch.product_id).map Product.name).getD "",
            "OUT", qty_to_use⟩] }

/-- Handler `add_batch` (`app.py` lines 285-314).  `get_or_404` on the
product; the quantity is `float(request.form.get('quantity'))` with NO
positivity check; the new batch gets `quantity_initial = quantity_current =
qty` and the supplied optional expiry date; an `IN` log row is appended in
the same commit.  `now` stands for the `entry_date` default
`datetime.utcnow`. -/
def add_batch (s : Store) (pid : Nat) (qty : Rat) (expiry : Option Nat)
    (actor : String) (now : Nat) : Except Err Store :=
  match findProduct s pid with
  | none => .error .notFound
  | some product =>
    .ok { s with
      batches := s.batches ++
        [⟨freshBatchId s, pid, qty, qty, now, expiry, actor⟩],
      logs := s.logs ++ [⟨actor, product.name, "IN", qty⟩] }

/-- Handler `create_product`, POST branch (`app.py` lines 177-206).  The
duplicate-barcode check runs first; then `float(request.form.get
('unit_price', 0))` is evaluated with NO try/except, so a parse failure
(`priceParse = none`) raises `ValueError` before anything is added to the
session: the request fails and the store is unchanged.  On success the
product and a `CREATE` log row (quantity delta 0) are committed together. -/
def create_product (s : Store) (barcode name brand supplier unit : String)
    (priceParse : Option Rat) (actor : String) : Except Err Store :=
  if (findProductByBarcode s barcode).isSome then
    .error .duplicateBarcode
  else
    match priceParse with
    | none => .error .invalidInput
    | some price =>
      .ok { s with
        products := s.products ++
          [⟨freshProductId s, barcode, name, brand, supplier, unit, price⟩],
        logs := s.logs ++ [⟨actor, name, "CREATE", 0⟩] }

/-- The row update performed by `edit_product` on the product with primary
key `pid`: all base fields are overwritten and the price falls back to `0`
when the parse failed. -/
def editFields (pid : Nat) (new_barcode name brand supplier unit : String)
    (priceParse : Option Rat) (p : Product) : Product :=
  if p.id == pid then
    { p with barcode := new_barcode, name := name, brand := brand,
             supplier := supplier, unit_measure := unit,
             unit_price := priceParse.getD 0 }
  else p

/-- Handler `edit_product`, POST branch (`app.py` lines 212-250).  Admin
gate first; `get_or_404`; the barcode-uniqueness re-check runs only when
the barcode changed; the price parse is wrapped in try/except and falls
back to `0.0` (`priceParse.getD 0`). -/
def edit_product (s : Store) (pid : Nat) (role : String)
    (new_barcode name brand supplier unit : String)
    (priceParse : Option Rat) : Except Err Store :=
  if role != "admin" then .error .forbidden
  else
    match findProduct s pid with
    | none => .error .notFound
    | some product =>
      if new_barcode != product.barcode &&
          (findProductByBarcode s new_barcode).isSome then
        .error .duplicateBarcode
      else
        .ok { s with
          products := s.products.map
            (editFields pid new_barcode name brand supplier unit priceParse) }

/-- Handler `delete_product` (`app.py` lines 252-267).  Admin gate first
(deny for every other role string); `get_or_404`; then the product row is
deleted and the `cascade="all, delete-orphan"` relationship deletes every
batch whose `product_id` references it.  Log rows are untouched. -/
def delete_product (s : Store) (pid : Nat) (role : String) :
    Except Err Store :=
  if role != "admin" then .error .forbidden
  else
    match findProduct s pid with
    | none => .error .notFound
    | some _ =>
      .ok { s with
        products := s.products.filter (fun p => !(p.id == pid)),
        batches := s.batches.filter (fun b => !(b.product_id == pid)) }

/-- Routes a request can be redirected to by the scan dispatcher. -/
inductive Route where
  | productDetail (id : Nat)
  | createProductPage (code : String)
  | dashboardNotFoundNotice
  | dashboard
deriving DecidableEq, Repr

/-- Handler `handle_scan` (`app.py` lines 143-169): a pure routing decision
over the barcode lookup and the mode flag; it performs no session write and
returns only a redirect, so its type has no output store. -/
def handle_scan (s : Store) (code mode : String) : Route :=
  let product := findProductByBarcode s code
  if mode == "in" then
    match product with
    | some p => .productDetail p.id
    | none => .createProductPage code
  else if mode == "out" then
    match product with
    | some p => .productDetail p.id
    | none => .dashboardNotFoundNotice
  else .dashboard

/-- The SQLite comparison used by `ORDER BY batch.expiry_date ASC`: SQLite
orders NULL before every non-NULL value in ascending order, so a missing
expiry date compares below every date. -/
def expiryLE (a b : Option Nat) : Bool :=
  match a, b with
  | none, _ => true
  | some _, none => false
  | some x, some y => x ≤ y

/-- Ordering relation on batches induced by the SQLite `expiry_date ASC`
key (NULL first). -/
def expiryRel (a b : Batch) : Prop :=
  expiryLE a.expiry_date b.expiry_date = true

instance : DecidableRel expiryRel := by
  unfold expiryRel; infer_instance

instance : IsTotal Batch expiryRel := by
  constructor
  intro a b
  unfold expiryRel expiryLE
  cases a.expiry_date <;> cases b.expiry_date <;> simp <;> omega

instance : IsTrans Batch expiryRel := by
  constructor
  intro a b c
  unfold expiryRel expiryLE
  cases a.expiry_date <;> cases b.expiry_date <;> cases c.expiry_date <;>
    simp <;> omega

/-- The batch listing of handler `product_detail` (`app.py` lines 271-283):
`Batch.query.filter_by(product_id=id).filter(Batch.quantity_current > 0)
.order_by(Batch.expiry_date.asc())` against the SQLite backend configured
on line 13 (SQLite orders NULL before all non-NULL values under `ASC`).
The SQL `ORDER BY` is modelled by sorting the filtered rows by the key. -/
def active_batches (s : Store) (pid : Nat) : List Batch :=
  List.insertionSort expiryRel (s.batches.filter
    (fun b => b.product_id == pid && decide (0 < b.quantity_current)))

/-- The delete action of handler `admin_users` (`app.py` lines 345-379,
delete branch lines 371-376).  Admin gate first; then
`User.query.filter_by(id=user_id).delete()` followed by an unconditional
commit and the flash `'Utente eliminato'` — there is no existence check, so
the same success-style message is returned whether or not any row matched.
The returned string is that flash message. -/
def admin_users_delete (s : Store) (role : String) (uid : Nat) :
    Except Err (Store × String) :=
  if role != "admin" then .error .forbidden
  else
    .ok ({ s with users := s.users.filter (fun u => !(u.id == uid)) },
      "Utente eliminato")

/-- The create action of handler `admin_users` (`app.py` lines 357-369):
admin gate, duplicate-username check, then insert. -/
def admin_users_create (s : Store) (role : String)
    (username password_hash urole : String) : Except Err Store :=
  if role != "admin" then .error .forbidden
  else if (s.users.find? (fun u => u.username == username)).isSome then
    .error .duplicateUsername
  else
    .ok { s with
      users := s.users ++ [⟨freshUserId s, username, password_hash, urole⟩] }

/-- One store-mutating operation of the application, with its request
arguments. -/
inductive Op where
  | createProduct (barcode name brand supplier unit : String)
      (priceParse : Option Rat) (actor : String)
  | editProduct (pid : Nat) (role : String)
      (barcode name brand supplier unit : String) (priceParse : Option Rat)
  | deleteProduct (pid : Nat) (role : String)
  | addBatch (pid : Nat) (qty : Rat) (expiry : Option Nat) (actor : String)
      (now : Nat)
  | useBatch (bid : Nat) (qty : Rat) (actor : String)
  | adminCreateUser (role username password_hash urole : String)
  | adminDeleteUser (role : String) (uid : Nat)

/-- Dispatch an operation to its handler (dropping the flash message of the
user-delete action). -/
def Op.apply : Op → Store → Except Err Store
  | .createProduct bc n br su un pp a, s => create_product s bc n br su un pp a
  | .editProduct pid r bc n br su un pp, s =>
      edit_product s pid r bc n br su un pp
  | .deleteProduct pid r, s => delete_product s pid r
  | .addBatch pid q e a now, s => add_batch s pid q e a now
  | .useBatch bid q a, s => use_batch s bid q a
  | .adminCreateUser r u p ur, s => admin_users_create s r u p ur
  | .adminDeleteUser r uid, s => (admin_users_delete s r uid).map Prod.fst

/-- The spec's per-batch invariant `0 ≤ quantity_current ≤ quantity_initial`. -/
def BatchInv (b : Batch) : Prop :=
  0 ≤ b.quantity_current ∧ b.quantity_current ≤ b.quantity_initial

instance (b : Batch) : Decidable (BatchInv b) := by
  unfold BatchInv; infer_instance

/-- Every batch of the store satisfies the spec's batch invariant. -/
def StoreInv (s : Store) : Prop := ∀ b ∈ s.batches, BatchInv b

instance (s : Store) : Decidable (StoreInv s) := by
  unfold StoreInv; infer_instance

/-- Batch primary keys are unique (a guarantee of the relational store). -/
def BatchIdsNodup (s : Store) : Prop :=
  (s.batches.map (fun b => b.id)).Nodup

/-- The non-negative-quantity side condition of the amended invariant
claim: the two quantity-carrying operations are called with `0 ≤ qty`. -/
def Op.qtyNonneg : Op → Prop
  | .addBatch _ q _ _ _ => 0 ≤ q
  | .useBatch _ q _ => 0 ≤ q
  | _ => True

/-- Remaining quantity of a batch id, `none` when the id is absent. -/
def batchQty (s : Store) (bid : Nat) : Option Rat :=
  (findBatch s bid).map Batch.quantity_current

/-- Remaining quantity of batch `bid2` after `use_batch` on `bid`; `none`
when the consume fails or the id is absent. -/
def qtyAfterUse (s : Store) (bid : Nat) (q : Rat) (actor : String)
    (bid2 : Nat) : Option Rat :=
  match use_batch s bid q actor with
  | .ok s2 => batchQty s2 bid2
  | .error _ => none

/-- All fields of the two batches agree except possibly
`quantity_current`. -/
def sameExceptQty (b b2 : Batch) : Prop :=
  b2.id = b.id ∧ b2.product_id = b.product_id ∧
  b2.quantity_initial = b.quantity_initial ∧
  b2.entry_date = b.entry_date ∧ b2.expiry_date = b.expiry_date ∧
  b2.created_by = b.created_by

/-- Unit price of product `pid` after an `edit_product` call; `none` when
the edit fails or the id is absent. -/
def priceAfterEdit (s : Store) (pid : Nat) (role : String)
    (bc n br su un : String) (pp : Option Rat) : Option Rat :=
  match edit_product s pid role bc n br su un pp with
  | .ok s2 => (findProduct s2 pid).map Product.unit_price
  | .error _ => none

/-- An empty database, as after `db.create_all()`. -/
def emptyStore : Store := ⟨[], [], [], []⟩

/-- A concrete product used by witnesses and counterexamples. -/
def prodA : Product := ⟨1, "111", "Flour", "Mill", "Sup", "kg", 2⟩

/-- A concrete batch of `prodA`: 10 received, 10 remaining. -/
def batchA : Batch := ⟨1, 1, 10, 10, 0, none, "admin"⟩

/-- A concrete store: an admin, a normal user, one product, one batch. -/
def storeA : Store :=
  ⟨[⟨1, "admin", "h", "admin"⟩, ⟨2, "bob", "h2", "user"⟩],
   [prodA], [batchA], []⟩

/-- The store reached from `emptyStore` by creating product `111`. -/
def store5 : Store :=
  ⟨[], [⟨1, "111", "Flour", "Mill", "Sup", "kg", 2⟩], [],
   [⟨"u", "Flour", "CREATE", 0⟩]⟩

/-- The store produced by `add_batch storeA 1 (-5) none "u" 0`: the new
batch has `quantity_initial = quantity_current = -5`. -/
def storeBad : Store :=
  ⟨storeA.users, storeA.products,
   [batchA, ⟨2, 1, -5, -5, 0, none, "u"⟩],
   [⟨"u", "Flour", "IN", -5⟩]⟩

/-- A store whose product 1 has batches expiring on day 20250101, day
20250301, never (NULL), and an exhausted batch that the listing must
exclude. -/
def store3 : Store :=
  ⟨[], [prodA],
   [⟨1, 1, 5, 5, 0, some 20250101, "u"⟩,
    ⟨2, 1, 5, 5, 0, some 20250301, "u"⟩,
    ⟨3, 1, 5, 5, 0, none, "u"⟩,
    ⟨4, 1, 5, 0, 0, some 1, "u"⟩],
   []⟩

/-!
Helper lemmas shared by several claim proofs.
-/

theorem find?_map_of_pred_eq {α : Type} (l : List α) (p : α → Bool)
    (f : α → α) (hf : ∀ a, p (f a) = p a) :
    (l.map f).find? p = (l.find? p).map f := by
  induction l with
  | nil => rfl
  | cons a l ih =>
    by_cases h : p a = true
    · rw [List.map_cons, List.find?_cons_of_pos _ (by rw [hf]; exact h),
        List.find?_cons_of_pos _ h]
      rfl
    · rw [List.map_cons, List.find?_cons_of_neg _ (by rw [hf]; exact h),
        List.find?_cons_of_neg _ h, ih]

theorem updQty_id (bid : Nat) (q : Rat) (b : Batch) :
    (updQty bid q b).id = b.id := by
  unfold updQty; split <;> rfl

theorem editFields_id (pid : Nat) (bc n br su un : String)
    (pp : Option Rat) (p : Product) :
    (editFields pid bc n br su un pp p).id = p.id := by
  unfold editFields; split <;> rfl

theorem findBatch_map_updQty (s : Store) (bid : Nat) (q : Rat) :
    (s.batches.map (updQty bid q)).find? (fun b => b.id == bid) =
      (s.batches.find? (fun b => b.id == bid)).map (updQty bid q) :=
  find?_map_of_pred_eq _ _ _ (fun a => by rw [updQty_id])

theorem filter_eq_self_of_no_match (l : List User) (uid : Nat)
    (h : ∀ u ∈ l, u.id ≠ uid) :
    l.filter (fun u => !(u.id == uid)) = l := by
  induction l with
  | nil => rfl
  | cons u l ih =>
    have hu : u.id ≠ uid := h u (by simp)
    rw [List.filter_cons, if_pos (by simp [hu])]
    rw [ih (fun v hv => h v (by simp [hv]))]

theorem use_batch_eq_ok (s : Store) (bid : Nat) (b : Batch) (q : Rat)
    (actor : String) (hb : findBatch s bid = some b)
    (hle : ¬ b.quantity_current < q) :
    use_batch s bid q actor = Except.ok
      { s with batches := s.batches.map (updQty bid q),
               logs := s.logs ++ [⟨actor,
                 ((findProduct s b.product_id).map Product.name).getD "",
                 "OUT", q⟩] } := by
  simp only [use_batch, hb]
  rw [if_neg hle]

theorem use_batch_ok_inv (s s2 : Store) (bid : Nat) (q : Rat)
    (actor : String) (h : use_batch s bid q actor = Except.ok s2) :
    ∃ b, findBatch s bid = some b ∧ ¬ b.quantity_current < q ∧
      s2 = { s with batches := s.batches.map (updQty bid q),
                    logs := s.logs ++ [⟨actor,
                      ((findProduct s b.product_id).map Product.name).getD "",
                      "OUT", q⟩] } := by
  cases hfb : findBatch s bid with
  | none =>
    simp only [use_batch, hfb] at h
    exact absurd h (by simp)
  | some b =>
    simp only [use_batch, hfb] at h
    by_cases hlt : b.quantity_current < q
    · rw [if_pos hlt] at h; exact absurd h (by simp)
    · rw [if_neg hlt] at h
      refine ⟨b, rfl, hlt, ?_⟩
      injection h with h
      exact h.symm

theorem storeA_inv : StoreInv storeA := by
  intro b hb
  simp [storeA] at hb
  subst hb
  exact ⟨by norm_num [batchA], by norm_num [batchA]⟩

/-- The store reached from `storeA` by a successful `use_batch` of 4 units
on batch 1. -/
def storeAused : Store :=
  ⟨storeA.users, storeA.products,
   [⟨1, 1, 10, 6, 0, none, "admin"⟩],
   [⟨"admin", "Flour", "OUT", 4⟩]⟩

theorem storeA_use4 : use_batch storeA 1 4 "admin" = Except.ok storeAused := by
  rw [use_batch_eq_ok storeA 1 batchA 4 "admin" rfl (by norm_num [batchA])]
  simp [storeA, storeAused, batchA, updQty, findProduct, prodA, List.find?]
  norm_num

/-- Claim C1 counterexample: the claim states that `use_batch` fails with
`InsufficientQuantity` for every quantity outside `0 < q ≤
quantity_current` and leaves `quantity_current` unchanged.  On `storeA`
(batch 1 holds 10) the request `q = -1` is outside that range, yet the
code succeeds and sets `quantity_current` to `11`: the source checks only
the upper bound `qty_to_use > batch.quantity_current`. -/
theorem claim1_counterexample :
    qtyAfterUse storeA 1 (-1) "admin" 1 = some 11 := by
  have huse := use_batch_eq_ok storeA 1 batchA (-1) "admin" rfl
    (by norm_num [batchA])
  unfold qtyAfterUse
  rw [huse]
  unfold batchQty findBatch
  show (((storeA.batches.map (updQty 1 (-1))).find?
      (fun b => b.id == 1)).map Batch.quantity_current) = some 11
  rw [findBatch_map_updQty]
  rw [show storeA.batches.find? (fun b => b.id == 1) = some batchA from rfl]
  simp [updQty, batchA]
  norm_num

/-- Claim C1 (amended): for an existing batch, `use_batch` succeeds exactly
when the requested quantity satisfies `q ≤ quantity_current` — the source
imposes no lower bound, so zero and negative quantities are accepted — and
on success it decrements `quantity_current` by exactly `q`; when
`q > quantity_current` it fails with `InsufficientQuantity` and performs no
mutation (an error result carries no store, exactly as the handler flashes
and redirects without committing). -/
theorem claim1_use_batch_guard (s : Store) (bid : Nat) (b : Batch) (q : Rat)
    (actor : String) (hb : findBatch s bid = some b) :
    (q ≤ b.quantity_current →
      qtyAfterUse s bid q actor bid = some (b.quantity_current - q)) ∧
    (b.quantity_current < q →
      use_batch s bid q actor = Except.error Err.insufficientQuantity) := by
  constructor
  · intro hle
    have huse := use_batch_eq_ok s bid b q actor hb (not_lt.mpr hle)
    unfold qtyAfterUse
    rw [huse]
    unfold batchQty findBatch
    show (((s.batches.map (updQty bid q)).find?
        (fun c => c.id == bid)).map Batch.quantity_current) =
      some (b.quantity_current - q)
    rw [findBatch_map_updQty]
    have hb2 : s.batches.find? (fun c => c.id == bid) = some b := hb
    rw [hb2]
    have hpred := List.find?_some hb2
    simp [updQty, hpred]
  · intro hlt
    simp only [use_batch, hb]
    rw [if_pos hlt]

/-- Witness for C1: on `storeA` (batch 1 holds 10), consuming 4 succeeds
and leaves 6; consuming 11 fails with `InsufficientQuantity`. -/
theorem claim1_use_batch_guard_witness :
    qtyAfterUse storeA 1 4 "admin" 1 = some 6 ∧
    use_batch storeA 1 11 "admin" =
      Except.error Err.insufficientQuantity := by
  have h1 := (claim1_use_batch_guard storeA 1 batchA 4 "admin" rfl).1
    (by norm_num [batchA])
  have h2 := (claim1_use_batch_guard storeA 1 batchA 11 "admin" rfl).2
    (by norm_num [batchA])
  refine ⟨?_, h2⟩
  rw [h1]
  norm_num [batchA]

/-- Claim C2 counterexample: starting from `storeA`, which satisfies the
invariant, `add_batch` accepts the quantity `-5` (the source parses the
form field with `float(...)` and never checks positivity) and creates a
batch with `quantity_current = quantity_initial = -5`, violating
`0 ≤ quantity_current`.  So the invariant is not preserved for all input
quantities the operations accept. -/
theorem claim2_counterexample :
    StoreInv storeA ∧
    Op.apply (Op.addBatch 1 (-5) none "u" 0) storeA = Except.ok storeBad ∧
    ¬ StoreInv storeBad := by
  refine ⟨storeA_inv, rfl, ?_⟩
  intro h
  have h2 := (h ⟨2, 1, -5, -5, 0, none, "u"⟩ (by simp [storeBad])).1
  norm_num at h2

/-- Claim C2 (amended): `0 ≤ quantity_current ≤ quantity_initial` is an
invariant preserved by every store-mutating operation of the application,
provided the quantity argument passed to `add_batch` and `use_batch` is
non-negative (the code itself accepts negative quantities, which break the
invariant) and batch primary keys are unique (guaranteed by the relational
store). -/
theorem claim2_invariant_preserved (s s2 : Store) (op : Op)
    (hids : BatchIdsNodup s) (hinv : StoreInv s) (hq : op.qtyNonneg)
    (h : op.apply s = Except.ok s2) : StoreInv s2 := by
  cases op with
  | createProduct bc n br su un pp a =>
    simp only [Op.apply, create_product] at h
    split at h
    · exact absurd h (by simp)
    · split at h
      · exact absurd h (by simp)
      · injection h with h
        subst h
        intro b hb
        exact hinv b hb
  | editProduct pid r bc n br su un pp =>
    simp only [Op.apply, edit_product] at h
    split at h
    · exact absurd h (by simp)
    · split at h
      · exact absurd h (by simp)
      · split at h
        · exact absurd h (by simp)
        · injection h with h
          subst h
          intro b hb
          exact hinv b hb
  | deleteProduct pid r =>
    simp only [Op.apply, delete_product] at h
    split at h
    · exact absurd h (by simp)
    · split at h
      · exact absurd h (by simp)
      · injection h with h
        subst h
        intro b hb
        exact hinv b (List.mem_of_mem_filter hb)
  | addBatch pid q e a now =>
    have hq2 : (0 : Rat) ≤ q := hq
    simp only [Op.apply, add_batch] at h
    split at h
    · exact absurd h (by simp)
    · injection h with h
      subst h
      intro b hb
      rcases List.mem_append.mp hb with hb | hb
      · exact hinv b hb
      · simp only [List.mem_singleton] at hb
        subst hb
        exact ⟨hq2, le_refl q⟩
  | useBatch bid q a =>
    have hq2 : (0 : Rat) ≤ q := hq
    obtain ⟨b, hb, hlt, rfl⟩ := use_batch_ok_inv s s2 bid q a h
    have hble : q ≤ b.quantity_current := not_lt.mp hlt
    have hb2 : s.batches.find? (fun c => c.id == bid) = some b := hb
    have hbmem : b ∈ s.batches := List.mem_of_find?_eq_some hb2
    have hbpred := List.find?_some hb2
    intro c hc
    rcases List.mem_map.mp hc with ⟨c0, hc0, rfl⟩
    unfold updQty
    by_cases hid : (c0.id == bid) = true
    · rw [if_pos hid]
      have hids2 : (s.batches.map (fun b => b.id)).Nodup := hids
      have hceq : c0 = b := by
        refine List.inj_on_of_nodup_map hids2 hc0 hbmem ?_
        have h1 : c0.id = bid := eq_of_beq hid
        have h2 : b.id = bid := eq_of_beq hbpred
        simp [h1, h2]
      subst hceq
      obtain ⟨hinv1, hinv2⟩ := hinv c0 hc0
      constructor
      · show (0 : Rat) ≤ c0.quantity_current - q
        linarith
      · show c0.quantity_current - q ≤ c0.quantity_initial
        linarith
    · rw [if_neg hid]
      exact hinv c0 hc0
  | adminCreateUser r u p ur =>
    simp only [Op.apply, admin_users_create] at h
    split at h
    · exact absurd h (by simp)
    · split at h
      · exact absurd h (by simp)
      · injection h with h
        subst h
        intro b hb
        exact hinv b hb
  | adminDeleteUser r uid =>
    simp only [Op.apply, admin_users_delete] at h
    split at h
    · simp only [Except.map] at h
      exact absurd h (by simp)
    · simp only [Except.map] at h
      injection h with h
      subst h
      intro b hb
      exact hinv b hb

/-- Witness for C2: the invariant holds in `storeAused`, the store reached
from the invariant-satisfying `storeA` by consuming 4 units from batch 1. -/
theorem claim2_invariant_preserved_witness : StoreInv storeAused :=
  claim2_invariant_preserved storeA storeAused (Op.useBatch 1 4 "admin")
    (by show (storeA.batches.map (fun b => b.id)).Nodup; decide)
    storeA_inv
    (by show (0 : Rat) ≤ 4; norm_num)
    storeA_use4

/-- Claim C3 counterexample: for a product with batches expiring on day
20250101, day 20250301 and never (NULL), plus an exhausted batch, the
claim predicts the listing order dated-ascending with the NULL-expiry
batch last.  The query runs on SQLite (`app.py` line 13), whose `ORDER BY
... ASC` places NULL before every non-NULL value, so the NULL-expiry batch
comes FIRST, not last. -/
theorem claim3_counterexample :
    (active_batches store3 1).map Batch.expiry_date =
      [none, some 20250101, some 20250301] ∧
    (active_batches store3 1).map Batch.expiry_date ≠
      [some 20250101, some 20250301, none] := by
  have hfilter : store3.batches.filter
      (fun b => b.product_id == 1 && decide (0 < b.quantity_current)) =
      [⟨1, 1, 5, 5, 0, some 20250101, "u"⟩,
       ⟨2, 1, 5, 5, 0, some 20250301, "u"⟩,
       ⟨3, 1, 5, 5, 0, none, "u"⟩] := by
    show List.filter _
      ([⟨1, 1, 5, 5, 0, some 20250101, "u"⟩,
        ⟨2, 1, 5, 5, 0, some 20250301, "u"⟩,
        ⟨3, 1, 5, 5, 0, none, "u"⟩,
        ⟨4, 1, 5, 0, 0, some 1, "u"⟩] : List Batch) = _
    rw [List.filter_cons, if_pos (by norm_num),
      List.filter_cons, if_pos (by norm_num),
      List.filter_cons, if_pos (by norm_num),
      List.filter_cons, if_neg (by norm_num),
      List.filter_nil]
  have heval : (active_batches store3 1).map Batch.expiry_date =
      [none, some 20250101, some 20250301] := by
    unfold active_batches
    rw [hfilter]
    rfl
  refine ⟨heval, ?_⟩
  rw [heval]
  simp

/-- Claim C3 (amended): `product_detail` lists exactly the batches of the
product with `quantity_current > 0`, sorted ascending by the SQLite
`expiry_date ASC` key — under which a missing (NULL) expiry date is
ordered BEFORE every batch that has one, not after. -/
theorem claim3_active_batches (s : Store) (pid : Nat) :
    (∀ b, b ∈ active_batches s pid ↔
      b ∈ s.batches ∧ b.product_id = pid ∧ 0 < b.quantity_current) ∧
    List.Sorted expiryRel (active_batches s pid) := by
  constructor
  · intro b
    unfold active_batches
    rw [List.Perm.mem_iff (List.perm_insertionSort _ _)]
    rw [List.mem_filter]
    simp
  · exact List.sorted_insertionSort _ _

/-- Claim C4 counterexample: the claim states `add_batch` requires
`quantity > 0`.  The source parses the quantity with `float(...)` and
performs no positivity check, so the request with quantity `-3` succeeds. -/
theorem claim4_counterexample :
    (add_batch storeA 1 (-3) none "u" 5).isOk = true := rfl

/-- Claim C4 (amended): `add_batch` imposes NO positivity requirement on
the quantity; for an existing product and any quantity `q` it succeeds,
appending exactly one new Batch with `quantity_initial = quantity_current
= q` and the given (possibly absent) expiry date, together with an `IN`
log entry recording `q`, in the same commit; nothing else changes. -/
theorem claim4_add_batch (s : Store) (pid : Nat) (p : Product) (q : Rat)
    (expiry : Option Nat) (actor : String) (now : Nat)
    (hp : findProduct s pid = some p) :
    add_batch s pid q expiry actor now = Except.ok
      { s with
        batches := s.batches ++
          [⟨freshBatchId s, pid, q, q, now, expiry, actor⟩],
        logs := s.logs ++ [⟨actor, p.name, "IN", q⟩] } := by
  simp only [add_batch, hp]

/-- Witness for C4: adding a batch of 5 with expiry day 9 to `storeA`
appends exactly the expected batch and `IN` log row. -/
theorem claim4_add_batch_witness :
    add_batch storeA 1 5 (some 9) "u" 3 = Except.ok
      { storeA with
        batches := storeA.batches ++ [⟨2, 1, 5, 5, 3, some 9, "u"⟩],
        logs := storeA.logs ++ [⟨"u", "Flour", "IN", 5⟩] } := by
  rw [claim4_add_batch storeA 1 prodA 5 (some 9) "u" 3 rfl]
  rfl

/-- Claim C5: `create_product` fails with `DuplicateBarcode` exactly when
an existing product carries the byte-identical barcode (the embedded
`String` equality is case-sensitive, as SQLite binary collation is); on
failure nothing is committed (the error carries no store), and on a fresh
barcode it inserts the product and a `CREATE` log row with quantity delta
zero atomically. -/
theorem claim5_create_product_dup (s : Store) (bc n br su un : String)
    (price : Rat) (actor : String) :
    ((findProductByBarcode s bc).isSome = true →
      create_product s bc n br su un (some price) actor =
        Except.error Err.duplicateBarcode) ∧
    ((findProductByBarcode s bc).isSome = false →
      create_product s bc n br su un (some price) actor = Except.ok
        { s with
          products := s.products ++
            [⟨freshProductId s, bc, n, br, su, un, price⟩],
          logs := s.logs ++ [⟨actor, n, "CREATE", 0⟩] }) := by
  constructor
  · intro h
    unfold create_product
    rw [if_pos h]
  · intro h
    unfold create_product
    rw [if_neg (by simp [h])]

/-- Witness for C5, mirroring Scenario 1: `store5` is the store obtained
by creating product `111`; retrying barcode `111` fails with
`DuplicateBarcode`, the store still has exactly one product, and a
different barcode would succeed. -/
theorem claim5_create_product_dup_witness :
    create_product store5 "111" "Bread" "" "" "" (some 0) "u" =
      Except.error Err.duplicateBarcode ∧
    store5.products.length = 1 ∧
    (create_product store5 "112" "Bread" "" "" "" (some 0) "u").isOk
      = true := by
  refine ⟨(claim5_create_product_dup store5 "111" "Bread" "" "" "" 0 "u").1
    rfl, rfl, ?_⟩
  rw [(claim5_create_product_dup store5 "112" "Bread" "" "" "" 0 "u").2 rfl]
  rfl

/-- Claim C6 counterexample: the claim states that a product-creation
request whose unit-price field fails numeric parsing falls back to price
`0.0` and completes normally.  In the source only `edit_product` wraps the
parse in try/except; `create_product` calls `float(...)` bare, so the
request fails (`ValueError`, here `Err.invalidInput`) and no product is
created. -/
theorem claim6_counterexample :
    create_product emptyStore "x" "N" "" "" "" none "u" =
      Except.error Err.invalidInput := rfl

/-- Claim C6 (amended): the lenient fallback-to-`0.0` policy for an
unparseable unit price applies only to `edit_product`; `create_product`
rejects the request on a price parse failure (it never completes with
price `0.0`). -/
theorem claim6_price_leniency (s : Store) (pid : Nat) (p : Product)
    (n br su un bc2 n2 br2 su2 un2 actor : String)
    (hp : findProduct s pid = some p) :
    priceAfterEdit s pid "admin" p.barcode n br su un none = some 0 ∧
    (create_product s bc2 n2 br2 su2 un2 none actor).isOk = false := by
  constructor
  · have hedit : edit_product s pid "admin" p.barcode n br su un none =
        Except.ok { s with
          products := s.products.map
            (editFields pid p.barcode n br su un none) } := by
      unfold edit_product
      rw [if_neg (by simp)]
      simp only [hp]
      rw [if_neg (by simp)]
    unfold priceAfterEdit
    rw [hedit]
    unfold findProduct
    show (((s.products.map (editFields pid p.barcode n br su un none)).find?
        (fun q => q.id == pid)).map Product.unit_price) = some 0
    rw [find?_map_of_pred_eq _ _ _
      (fun a => by rw [editFields_id])]
    have hp2 : s.products.find? (fun q => q.id == pid) = some p := hp
    rw [hp2]
    have hpred := List.find?_some hp2
    simp [editFields, hpred]
  · unfold create_product
    by_cases hdup : (findProductByBarcode s bc2).isSome = true
    · rw [if_pos hdup]
      rfl
    · rw [if_neg hdup]
      rfl

/-- Witness for C6: editing product 1 of `storeA` with an unparseable
price stores price `0`; creating a product with an unparseable price does
not succeed. -/
theorem claim6_price_leniency_witness :
    priceAfterEdit storeA 1 "admin" "111" "Flour" "Mill" "Sup" "kg" none =
      some 0 ∧
    (create_product storeA "zzz" "Z" "" "" "" none "u").isOk = false :=
  claim6_price_leniency storeA 1 prodA
    "Flour" "Mill" "Sup" "kg" "zzz" "Z" "" "" "" "u" rfl

/-- Claim C7: `delete_product` fails with `Forbidden` for every role other
than exactly `"admin"` and performs no mutation (the error carries no
store); for an admin and an existing product it succeeds, removing the
product row and every batch referencing it while leaving users and logs
untouched. -/
theorem claim7_delete_product (s : Store) (pid : Nat) (role : String) :
    (role ≠ "admin" →
      delete_product s pid role = Except.error Err.forbidden) ∧
    (∀ p, findProduct s pid = some p →
      ∃ s2, delete_product s pid "admin" = Except.ok s2 ∧
        (∀ r, r ∈ s2.products ↔ r ∈ s.products ∧ r.id ≠ pid) ∧
        (∀ b, b ∈ s2.batches ↔ b ∈ s.batches ∧ b.product_id ≠ pid) ∧
        s2.users = s.users ∧ s2.logs = s.logs) := by
  constructor
  · intro h
    unfold delete_product
    rw [if_pos (bne_iff_ne.mpr h)]
  · intro p hp
    refine ⟨{ s with
        products := s.products.filter (fun r => !(r.id == pid)),
        batches := s.batches.filter (fun b => !(b.product_id == pid)) },
      ?_, ?_, ?_, rfl, rfl⟩
    · simp only [delete_product, hp]
      rw [if_neg (by simp)]
    · intro r
      show r ∈ s.products.filter (fun r => !(r.id == pid)) ↔ _
      rw [List.mem_filter]
      simp
    · intro b
      show b ∈ s.batches.filter (fun b => !(b.product_id == pid)) ↔ _
      rw [List.mem_filter]
      simp

/-- Witness for C7, mirroring Scenario 3: on `storeA` a non-admin delete
fails with `Forbidden` and an admin delete succeeds. -/
theorem claim7_delete_product_witness :
    delete_product storeA 1 "user" = Except.error Err.forbidden ∧
    (delete_product storeA 1 "admin").isOk = true := by
  obtain ⟨s2, hdel, -, -, -, -⟩ :=
    (claim7_delete_product storeA 1 "user").2 prodA rfl
  exact ⟨(claim7_delete_product storeA 1 "user").1 (by decide),
    by rw [hdel]; rfl⟩

/-- Claim C8 counterexample: the claim states that deleting a user id
absent from the store surfaces a not-found response.  The source runs
`User.query.filter_by(id=user_id).delete()` with no existence check and
unconditionally flashes the success-style message `'Utente eliminato'`:
deleting the missing id 99 from `storeA` returns that message and the
unchanged store, not a `NotFound` condition. -/
theorem claim8_counterexample :
    admin_users_delete storeA "admin" 99 =
      Except.ok (storeA, "Utente eliminato") := rfl

/-- Claim C8 (amended): for an admin, deleting a user id that matches no
row is a silent no-op: the store is returned unchanged together with the
same `'Utente eliminato'` flash used for a real deletion; no not-found
condition is surfaced. -/
theorem claim8_delete_missing_user (s : Store) (uid : Nat)
    (h : ∀ u ∈ s.users, u.id ≠ uid) :
    admin_users_delete s "admin" uid =
      Except.ok (s, "Utente eliminato") := by
  unfold admin_users_delete
  rw [if_neg (by simp)]
  rw [filter_eq_self_of_no_match s.users uid h]

/-- Witness for C8: `storeA` has users with ids 1 and 2 only; deleting id
7 returns the unchanged store with the success-style message. -/
theorem claim8_delete_missing_user_witness :
    admin_users_delete storeA "admin" 7 =
      Except.ok (storeA, "Utente eliminato") :=
  claim8_delete_missing_user storeA 7 (by decide)

/-- Claim C9: `handle_scan` is a pure routing decision over the mode flag
and the barcode lookup — its result type is only a redirect target, so it
can mutate nothing — with exactly the claimed four cases: mode `in` routes
to the product's detail page when found and to pre-filled product creation
when not; mode `out` routes to the detail page when found and to the
dashboard with a not-found notice when not. -/
theorem claim9_handle_scan (s : Store) (code : String) :
    (∀ p, findProductByBarcode s code = some p →
      handle_scan s code "in" = Route.productDetail p.id ∧
      handle_scan s code "out" = Route.productDetail p.id) ∧
    (findProductByBarcode s code = none →
      handle_scan s code "in" = Route.createProductPage code ∧
      handle_scan s code "out" = Route.dashboardNotFoundNotice) := by
  constructor
  · intro p hp
    constructor
    · simp only [handle_scan, hp]
      rfl
    · simp only [handle_scan, hp]
      rfl
  · intro hnone
    constructor
    · simp only [handle_scan, hnone]
      rfl
    · simp only [handle_scan, hnone]
      rfl

/-- Witness for C9, mirroring Scenario 4: barcode `222` is unknown in
`storeA`; scanning it in mode `in` routes to product creation pre-filled
with `222`, and in mode `out` to the dashboard with the not-found
notice. -/
theorem claim9_handle_scan_witness :
    handle_scan storeA "222" "in" = Route.createProductPage "222" ∧
    handle_scan storeA "222" "out" = Route.dashboardNotFoundNotice :=
  (claim9_handle_scan storeA "222").2 rfl

/-- Claim C10: a successful `use_batch` mutates nothing but the target
batch's `quantity_current` and the appended `OUT` log row: products and
users are untouched, no batch is added or removed, every batch keeps its
`id`, `product_id`, `quantity_initial`, `entry_date`, `expiry_date` and
`created_by`, and every batch whose id is not the target is entirely
unchanged. -/
theorem claim10_use_batch_frame (s s2 : Store) (bid : Nat) (q : Rat)
    (actor : String) (h : use_batch s bid q actor = Except.ok s2) :
    s2.products = s.products ∧ s2.users = s.users ∧
    (∃ e, s2.logs = s.logs ++ [e] ∧ e.action = "OUT" ∧
      e.quantity_change = q ∧ e.user_id = actor) ∧
    s2.batches.length = s.batches.length ∧
    (∀ i (hi : i < s.batches.length) (hi2 : i < s2.batches.length),
      sameExceptQty (s.batches.get ⟨i, hi⟩) (s2.batches.get ⟨i, hi2⟩) ∧
      ((s.batches.get ⟨i, hi⟩).id ≠ bid →
        s2.batches.get ⟨i, hi2⟩ = s.batches.get ⟨i, hi⟩)) := by
  obtain ⟨b, hb, hlt, rfl⟩ := use_batch_ok_inv s s2 bid q actor h
  refine ⟨rfl, rfl, ⟨_, rfl, rfl, rfl, rfl⟩, by simp, ?_⟩
  intro i hi hi2
  have hget : (List.map (updQty bid q) s.batches).get ⟨i, hi2⟩ =
      updQty bid q (s.batches.get ⟨i, hi⟩) := by
    simp [List.get_eq_getElem]
  show sameExceptQty (s.batches.get ⟨i, hi⟩)
      ((List.map (updQty bid q) s.batches).get ⟨i, hi2⟩) ∧ _
  rw [hget]
  unfold updQty
  by_cases hid : ((s.batches.get ⟨i, hi⟩).id == bid) = true
  · rw [if_pos hid]
    refine ⟨⟨rfl, rfl, rfl, rfl, rfl, rfl⟩, ?_⟩
    intro hne
    exact absurd (eq_of_beq hid) hne
  · rw [if_neg hid]
    exact ⟨⟨rfl, rfl, rfl, rfl, rfl, rfl⟩, fun _ => rfl⟩

/-- Witness for C10: the successful consume of 4 units from batch 1 of
`storeA` yields `storeAused`, whose products and users equal `storeA`'s
and whose batch count is unchanged. -/
theorem claim10_use_batch_frame_witness :
    storeAused.products = storeA.products ∧
    storeAused.users = storeA.users ∧
    storeAused.batches.length = storeA.batches.length := by
  have h := claim10_use_batch_frame storeA storeAused 1 4 "admin"
    storeA_use4
  exact ⟨h.1, h.2.1, h.2.2.2.1⟩
